import Mathlib

/-!
Verification of the quilora-ai RAG service against its specification.

Shallow embedding of the repository's Python code:
- `src/document_stores/store.py` — Qdrant document store (write/delete/point ids)
- `src/pipelines/retrieval.py` — retrieval pipelines (retry, streaming events)
- `src/pipelines/indexing.py` — indexing pipeline construction
- `src/api/routes/documents.py` — document CRUD endpoints
- `src/api/routes/query.py` — query endpoint

Machine integers are modelled as `Nat` with explicit `% 2^32` where the code
(MD5) depends on 32-bit overflow.  Fallible Python code is modelled with
`Except`; external services (Qdrant client, OpenAI) are modelled as explicit
environment/outcome parameters, since their behaviour is not part of this
repository.
-/

namespace Quilora

/-! ### MD5 (RFC 1321), used by `hashlib.md5` in store.py

The store derives Qdrant point ids from `hashlib.md5(str(doc.id).encode()).hexdigest()`.
We embed MD5 over byte lists, with 32-bit words as `Nat` reduced mod `2^32`. -/

/-- Word size modulus: `2^32`. -/
def w32mod : Nat := 4294967296

/-- 32-bit bitwise complement of `x` (for `x < 2^32`). -/
def wnot (x : Nat) : Nat := Nat.xor x 4294967295

/-- 32-bit left-rotate of `x` by `n` bits (`0 < n < 32`, `x < 2^32`). -/
def rotl (x n : Nat) : Nat := (Nat.lor (x <<< n) (x >>> (32 - n))) % w32mod

/-- MD5 sine-derived constant table `K[0..63]` (RFC 1321). -/
def md5K : List Nat :=
  [3614090360, 3905402710, 606105819, 3250441966, 4118548399, 1200080426,
   2821735955, 4249261313, 1770035416, 2336552879, 4294925233, 2304563134,
   1804603682, 4254626195, 2792965006, 1236535329, 4129170786, 3225465664,
   643717713, 3921069994, 3593408605, 38016083, 3634488961, 3889429448,
   568446438, 3275163606, 4107603335, 1163531501, 2850285829, 4243563512,
   1735328473, 2368359562, 4294588738, 2272392833, 1839030562, 4259657740,
   2763975236, 1272893353, 4139469664, 3200236656, 681279174, 3936430074,
   3572445317, 76029189, 3654602809, 3873151461, 530742520, 3299628645,
   4096336452, 1126891415, 2878612391, 4237533241, 1700485571, 2399980690,
   4293915773, 2240044497, 1873313359, 4264355552, 2734768916, 1309151649,
   4149444226, 3174756917, 718787259, 3951481745]

/-- MD5 per-round shift amounts `s[0..63]` (RFC 1321). -/
def md5S : List Nat :=
  [7, 12, 17, 22, 7, 12, 17, 22, 7, 12, 17, 22, 7, 12, 17, 22,
   5, 9, 14, 20, 5, 9, 14, 20, 5, 9, 14, 20, 5, 9, 14, 20,
   4, 11, 16, 23, 4, 11, 16, 23, 4, 11, 16, 23, 4, 11, 16, 23,
   6, 10, 15, 21, 6, 10, 15, 21, 6, 10, 15, 21, 6, 10, 15, 21]

/-- One MD5 step `i` (of 64) on state `(a, b, c, d)` with message words `m`. -/
def md5Step (m : List Nat) (st : Nat × Nat × Nat × Nat) (i : Nat) : Nat × Nat × Nat × Nat :=
  let (a, b, c, d) := st
  let fg : Nat × Nat :=
    if i < 16 then (Nat.lor (Nat.land b c) (Nat.land (wnot b) d), i)
    else if i < 32 then (Nat.lor (Nat.land d b) (Nat.land (wnot d) c), (5 * i + 1) % 16)
    else if i < 48 then (Nat.xor (Nat.xor b c) d, (3 * i + 5) % 16)
    else (Nat.xor c (Nat.lor b (wnot d)), (7 * i) % 16)
  let fv := (fg.1 + a + md5K.getD i 0 + m.getD fg.2 0) % w32mod
  (d, (b + rotl fv (md5S.getD i 0)) % w32mod, b, c)

/-- Group a byte list into 32-bit little-endian words. -/
def bytesToWords : List Nat → List Nat
  | b0 :: b1 :: b2 :: b3 :: rest =>
      (b0 + b1 * 256 + b2 * 65536 + b3 * 16777216) :: bytesToWords rest
  | _ => []

/-- Process one 64-byte MD5 block, adding the step results into the state. -/
def md5Block (st : Nat × Nat × Nat × Nat) (block : List Nat) : Nat × Nat × Nat × Nat :=
  let m := bytesToWords block
  let r := (List.range 64).foldl (md5Step m) st
  ((st.1 + r.1) % w32mod, (st.2.1 + r.2.1) % w32mod,
   (st.2.2.1 + r.2.2.1) % w32mod, (st.2.2.2 + r.2.2.2) % w32mod)

/-- Split a byte list into `n` consecutive 64-byte blocks. -/
def md5Chunks : Nat → List Nat → List (List Nat)
  | 0, _ => []
  | n + 1, bytes => bytes.take 64 :: md5Chunks n (bytes.drop 64)

/-- Fold the MD5 block function over the (padded) message, 64 bytes at a time.
MD5 padding makes the length a multiple of 64, so `length / 64` blocks cover it. -/
def md5Blocks (st : Nat × Nat × Nat × Nat) (bytes : List Nat) : Nat × Nat × Nat × Nat :=
  (md5Chunks (bytes.length / 64) bytes).foldl md5Block st

/-- Little-endian byte expansion (4 bytes) of a 32-bit word. -/
def leBytes4 (n : Nat) : List Nat :=
  [n % 256, n / 256 % 256, n / 65536 % 256, n / 16777216 % 256]

/-- Little-endian byte expansion (8 bytes) of the 64-bit bit-length field. -/
def leBytes8 (n : Nat) : List Nat :=
  [n % 256, n / 256 % 256, n / 65536 % 256, n / 16777216 % 256,
   n / 4294967296 % 256, n / 1099511627776 % 256,
   n / 281474976710656 % 256, n / 72057594037927936 % 256]

/-- MD5 padding: append `0x80`, zero bytes to 56 mod 64, then the bit length. -/
def md5Pad (msg : List Nat) : List Nat :=
  msg ++ [128] ++ List.replicate ((119 - msg.length % 64) % 64) 0
      ++ leBytes8 (msg.length * 8 % 18446744073709551616)

/-- One lowercase hex digit. -/
def hexDigit (n : Nat) : Char :=
  if n < 10 then Char.ofNat (48 + n) else Char.ofNat (87 + n)

/-- Two lowercase hex digits of one byte. -/
def byteHex (b : Nat) : List Char := [hexDigit (b / 16), hexDigit (b % 16)]

/-- `hashlib.md5(bytes).hexdigest()`: the 32-char lowercase hex MD5 digest. -/
def md5hexdigest (msg : List Nat) : String :=
  let r := md5Blocks (1732584193, 4023233417, 2562383102, 271733878) (md5Pad msg)
  String.mk (([r.1, r.2.1, r.2.2.1, r.2.2.2].flatMap leBytes4).flatMap byteHex)

/-- `str.encode()` — the UTF-8 bytes of a string, as `Nat`s. -/
def utf8Bytes (s : String) : List Nat :=
  (s.data.flatMap String.utf8EncodeChar).map UInt8.toNat

/-! ### Point ids (store.py)

`write_documents` (lines 126-131) and `delete_documents` (lines 252-259) each
derive the Qdrant point id from a document id as
`hashlib.md5(str(doc_id).encode()).hexdigest()` re-formatted as a UUID string
`hash[:8]-hash[8:12]-hash[12:16]-hash[16:20]-hash[20:]`.  We embed the two code
sites as two separate definitions so their agreement is a theorem, not a
definition. -/

/-- Point id computed inside `write_documents` (store.py lines 126-131). -/
def write_point_id (doc_id : String) : String :=
  let md5_hash := md5hexdigest (utf8Bytes doc_id)
  let cs := md5_hash.data
  String.mk (cs.take 8) ++ "-" ++ String.mk ((cs.drop 8).take 4) ++ "-" ++
    String.mk ((cs.drop 12).take 4) ++ "-" ++ String.mk ((cs.drop 16).take 4) ++ "-" ++
    String.mk (cs.drop 20)

/-- Point id computed inside `delete_documents` (store.py lines 252-259). -/
def delete_point_id (doc_id : String) : String :=
  let md5_hash := md5hexdigest (utf8Bytes doc_id)
  let cs := md5_hash.data
  String.mk (cs.take 8) ++ "-" ++ String.mk ((cs.drop 8).take 4) ++ "-" ++
    String.mk ((cs.drop 12).take 4) ++ "-" ++ String.mk ((cs.drop 16).take 4) ++ "-" ++
    String.mk (cs.drop 20)

/-! ### Documents, points and the Qdrant client (store.py) -/

/-- Haystack `Document` as used by store.py: id, content, flat metadata and an
optional embedding vector.  Vector entries are abstract (`Int`); no claim
inspects their numeric values. -/
structure Document where
  id : String
  content : String
  meta : List (String × String)
  embedding : Option (List Int)
deriving DecidableEq, Repr

/-- Qdrant `PointStruct`: point id, vector and payload. -/
structure PointStruct where
  id : String
  vector : List Int
  payload : List (String × String)
deriving DecidableEq, Repr

/-- The point built for one document in the `write_documents` loop
(store.py lines 121-146): skipped when the embedding is `None`, otherwise a
point whose id is the md5-derived UUID of the document id and whose payload is
`{"content": .., "doc_id": .., **doc.meta}`. -/
def mkPoint (doc : Document) : Option PointStruct :=
  match doc.embedding with
  | none => none
  | some emb =>
      some { id := write_point_id doc.id
             vector := emb
             payload := ("content", doc.content) :: ("doc_id", doc.id) :: doc.meta }

/-- Outcomes of the remote Qdrant calls store.py makes.  The remote store is an
external service, so each call's success is an environment parameter. -/
structure QdrantClient where
  upsertOk : List PointStruct → Bool
  deleteByIdsOk : List String → Bool
  deleteByFilterOk : List (String × String) → Bool

/-- First `n` chunks of `bs` elements each, mirroring
`for i in range(0, len(points), batch_size): points[i : i + batch_size]`. -/
def chunksN (bs : Nat) : Nat → List α → List (List α)
  | 0, _ => []
  | n + 1, xs => xs.take bs :: chunksN bs n (xs.drop bs)

/-- The batch upsert loop of `write_documents` (store.py lines 152-166): each
batch is upserted; on failure the exception propagates (`raise`), otherwise
`total_written += len(batch)`.  Also returns the points successfully upserted. -/
def upsertBatches (client : QdrantClient) (batches : List (List PointStruct)) (acc : Nat) :
    Except String Nat × List PointStruct :=
  match batches with
  | [] => (.ok acc, [])
  | b :: rest =>
      if client.upsertOk b then
        let r := upsertBatches client rest (acc + b.length)
        (r.1, b ++ r.2)
      else (.error "Failed to write batch", [])

/-- `QdrantDocumentStore.write_documents` (store.py lines 101-168).
Returns the written count (or the propagated exception) together with the
points successfully upserted.  `batch_size = 0` is Python's
`range(..., 0)` `ValueError`. -/
def write_documents (client : QdrantClient) (documents : List Document)
    (batch_size : Nat) : Except String Nat × List PointStruct :=
  if documents = [] then (.ok 0, [])
  else if documents.filterMap mkPoint = [] then (.ok 0, [])
  else if batch_size = 0 then (.error "ValueError: range() arg 3 must not be zero", [])
  else
    upsertBatches client
      (chunksN batch_size
        (((documents.filterMap mkPoint).length + batch_size - 1) / batch_size)
        (documents.filterMap mkPoint)) 0

/-- The remote deletion calls `delete_documents` issues. -/
inductive DeleteEffect
  | byIds (pointIds : List String)
  | byFilter (conditions : List (String × String))
deriving DecidableEq, Repr

/-- `QdrantDocumentStore.delete_documents` (store.py lines 234-295).
Python truthiness: `if document_ids:` / `if filters:` treat `None` and empty
alike, modelled by `[]`.  Returns the count (or propagated exception) together
with the remote deletion calls performed. -/
def delete_documents (client : QdrantClient) (document_ids : List String)
    (filters : List (String × String)) : Except String Int × List DeleteEffect :=
  if document_ids ≠ [] then
    let point_ids := document_ids.map delete_point_id
    if client.deleteByIdsOk point_ids then
      (.ok (document_ids.length : Int), [.byIds point_ids])
    else (.error "Failed to delete documents", [.byIds point_ids])
  else if filters ≠ [] then
    if client.deleteByFilterOk filters then ((.ok (-1) : Except String Int), [.byFilter filters])
    else (.error "Failed to delete documents by filter", [.byFilter filters])
  else (.ok 0, [])

/-! ### Qdrant upsert/delete semantics (environment)

Model of the Qdrant server's documented behaviour for `client.upsert` and
`client.delete` (not repository code): upsert replaces the point with the same
id if present, else appends; delete-by-ids removes exactly the points whose id
is in the selector. -/

/-- Qdrant server: upsert one point into a collection. -/
def upsertPoint (points : List PointStruct) (p : PointStruct) : List PointStruct :=
  if points.any (fun q => q.id == p.id) then
    points.map (fun q => if q.id == p.id then p else q)
  else points ++ [p]

/-- Qdrant server: delete all points whose id is in `pointIds`. -/
def deleteByIds (points : List PointStruct) (pointIds : List String) : List PointStruct :=
  points.filter (fun q => !(pointIds.contains q.id))

/-! ### Document management routes (api/routes/documents.py) -/

/-- The HTTP outcomes the document routes produce. -/
inductive HttpResponse
  | ok200 (message : String) (document_id : String)
  | notFound404 (detail : String)
  | badRequest400 (detail : String)
  | serverError500 (detail : String)
deriving DecidableEq, Repr

/-- `DELETE /documents/{document_id}` (documents.py lines 232-264):
calls `store.delete_documents(document_ids=[document_id])`; treats result
`-1` as success, any other result as 404 `Document not found`; store
exceptions become 500. -/
def delete_document (client : QdrantClient) (document_id : String) : HttpResponse :=
  match (delete_documents client [document_id] []).1 with
  | .error _ => .serverError500 "Internal server error"
  | .ok result =>
      if result = -1 then
        .ok200 ("Document '" ++ document_id ++ "' deletion requested") document_id
      else .notFound404 "Document not found"

/-! ### Retrieval pipeline (pipelines/retrieval.py)

The OpenAI embedder, the Qdrant search and the LLM are external services;
their outcomes are environment parameters. -/

/-- Outcome of one call to the OpenAI embedder (environment).  tenacity
retries only `openai.APIError` / `openai.APIConnectionError`
(`retry_if_exception_type`); any other exception is re-raised immediately. -/
inductive EmbedAttempt
  | ok (embedding : List Int)
  | retryable (message : String)
  | fatal (message : String)
deriving DecidableEq, Repr

/-- tenacity loop of `_generate_embedding_with_retry` (retrieval.py lines
99-107): attempt `i` with `left` further attempts allowed
(`stop_after_attempt(3)`, `reraise=True` re-raises the last exception). -/
def retryEmbedding (attempts : Nat → EmbedAttempt) : Nat → Nat → Except String (List Int)
  | i, left =>
    match attempts i with
    | .ok e => .ok e
    | .fatal m => .error m
    | .retryable m =>
      match left with
      | 0 => .error m
      | left' + 1 => retryEmbedding attempts (i + 1) left'

/-- `_generate_embedding_with_retry` (retrieval.py lines 99-107): first attempt
plus at most 2 retries (`stop_after_attempt(3)`). -/
def generate_embedding_with_retry (attempts : Nat → EmbedAttempt) : Except String (List Int) :=
  retryEmbedding attempts 0 2

/-- The three pipeline stages of `retrieve_documents` (retrieval.py). -/
inductive Stage
  | embedding
  | search
  | generation
deriving DecidableEq, Repr

/-- The distinguished failure raised by the retrieval pipeline
(`ExternalServiceError`, retrieval.py lines 28-30), wrapping the cause. -/
inductive PipelineError
  | externalService (message : String)
deriving DecidableEq, Repr

/-- External-service outcomes seen by one `retrieve_documents` call. -/
structure RetrievalEnv where
  embedAttempts : Nat → EmbedAttempt
  searchResult : Except String (List Document)
  generationResult : Except String String

/-- Successful result of `retrieve_documents` (retrieval.py lines 211-220);
timing metadata is real time and not modelled. -/
structure RetrievalResult where
  query : String
  documents : List Document
  answer : String
deriving DecidableEq, Repr

/-- `retrieve_documents` (retrieval.py lines 125-223): embed (with retry),
search, generate; each `except` wraps the failure in `ExternalServiceError`.
Also returns the list of stages that executed. -/
def retrieve_documents (env : RetrievalEnv) (query : String) :
    Except PipelineError RetrievalResult × List Stage :=
  match generate_embedding_with_retry env.embedAttempts with
  | .error e => (.error (.externalService ("Failed to generate embedding: " ++ e)), [.embedding])
  | .ok _ =>
    match env.searchResult with
    | .error e =>
        (.error (.externalService ("Failed to search documents: " ++ e)), [.embedding, .search])
    | .ok docs =>
      match env.generationResult with
      | .error e =>
          (.error (.externalService ("Failed to generate answer: " ++ e)),
           [.embedding, .search, .generation])
      | .ok answer => (.ok ⟨query, docs, answer⟩, [.embedding, .search, .generation])

/-- Events yielded by `retrieve_documents_streaming` (retrieval.py lines 226-359). -/
inductive StreamEvent
  | documents (docs : List Document)
  | token (content : String)
  | done
  | error (message : String)
deriving DecidableEq, Repr

/-- External-service outcomes seen by one `retrieve_documents_streaming` call:
embedding attempts, net search outcome, the token contents received from the
LLM stream, and an optional exception ending the stream after those tokens
(a timeout is one such exception). -/
structure StreamingEnv where
  embedAttempts : Nat → EmbedAttempt
  searchResult : Except String (List Document)
  llmTokens : List String
  llmFailure : Option String

/-- `retrieve_documents_streaming` (retrieval.py lines 226-359) as the list of
events it yields: an embedding failure yields one `error` event and returns; a
search failure yields one `error` event and returns; otherwise one `documents`
event, then one `token` event per received content chunk, then `done` — or
`error` if the LLM stream raised. -/
def retrieve_documents_streaming (env : StreamingEnv) : List StreamEvent :=
  match generate_embedding_with_retry env.embedAttempts with
  | .error e => [.error ("Failed to generate embedding: " ++ e)]
  | .ok _ =>
    match env.searchResult with
    | .error e => [.error ("Failed to search documents: " ++ e)]
    | .ok docs =>
      .documents docs ::
        (env.llmTokens.map StreamEvent.token ++
          match env.llmFailure with
          | none => [.done]
          | some e => [.error ("Failed to stream answer: " ++ e)])

/-- Event classifier: `documents` events. -/
def isDocumentsEvent : StreamEvent → Bool
  | .documents _ => true
  | _ => false

/-- Event classifier: `token` events. -/
def isTokenEvent : StreamEvent → Bool
  | .token _ => true
  | _ => false

/-- Event classifier: terminal events (`done` or `error`). -/
def isTerminalEvent : StreamEvent → Bool
  | .done => true
  | .error _ => true
  | _ => false

/-- Stages that execute when the streaming generator is consumed. -/
def streamingStages (env : StreamingEnv) : List Stage :=
  match generate_embedding_with_retry env.embedAttempts with
  | .error _ => [.embedding]
  | .ok _ =>
    match env.searchResult with
    | .error _ => [.embedding, .search]
    | .ok _ => [.embedding, .search, .generation]

/-! ### Query route (api/routes/query.py) -/

/-- Python `str.strip()` (whitespace strip), as used by
`query_request.query.strip()` and `text_content.strip()`: drop leading and
trailing whitespace characters. -/
def pyStrip (s : String) : String :=
  String.mk (((s.data.dropWhile Char.isWhitespace).reverse.dropWhile Char.isWhitespace).reverse)

/-- HTTP outcomes of `POST /query`. -/
inductive QueryHttp
  | badRequest400 (detail : String)
  | okJson (answer : String) (documents : List Document)
  | sse (events : List StreamEvent)
  | serverError500 (detail : String)
deriving DecidableEq, Repr

/-- `query_documents` = `POST /query` (query.py lines 55-104): reject an
empty/whitespace-only query with 400 before anything else; then either return
the SSE stream (`stream` models the `query_request.stream` flag the handler
reads at line 74) or run the non-streaming pipeline, turning its failure into
500.  Also returns the pipeline stages that execute for the request. -/
def query_documents (env : RetrievalEnv) (senv : StreamingEnv) (query : String)
    (stream : Bool) : QueryHttp × List Stage :=
  if pyStrip query = "" then (.badRequest400 "Query cannot be empty", [])
  else if stream then (.sse (retrieve_documents_streaming senv), streamingStages senv)
  else
    match retrieve_documents env query with
    | (.error _, stages) => (.serverError500 "Internal server error", stages)
    | (.ok r, stages) => (.okJson r.answer r.documents, stages)

/-! ### Upload route (api/routes/documents.py) -/

/-- `SUPPORTED_EXTENSIONS` (documents.py line 29). -/
def SUPPORTED_EXTENSIONS : List String := [".txt", ".md"]

/-- Python `str.split(sep)` for a single-character separator, over chars. -/
def splitOnChar (sep : Char) : List Char → List (List Char)
  | [] => [[]]
  | c :: cs =>
      let r := splitOnChar sep cs
      if c = sep then [] :: r
      else
        match r with
        | [] => [[c]]
        | g :: gs => (c :: g) :: gs

/-- Extension extraction (documents.py line 99):
`"." + filename.split(".")[-1].lower() if "." in filename else ""`. -/
def extensionOf (filename : String) : String :=
  let cs := filename.data
  if cs.contains '.' then
    "." ++ String.mk (((splitOnChar '.' cs).getLastD []).map Char.toLower)
  else ""

/-- HTTP outcomes of `POST /documents/upload`. -/
inductive UploadHttp
  | created201 (document_id : String) (chunk_count : Nat) (message : String)
  | badRequest400 (detail : String)
  | serverError500 (detail : String)
deriving DecidableEq, Repr

/-- Environment of one upload request: the Python UTF-8 decoder
(`bytes.decode("utf-8")` returns the text or raises `UnicodeDecodeError`,
modelled as `Option`), the generated `uuid4` document id, and the net outcome
of `index_documents` (documents written, or a raised exception). -/
structure UploadEnv where
  decodeUtf8 : List Nat → Option String
  newDocId : String
  indexResult : String → Except String Nat

/-- `upload_document` = `POST /documents/upload` (documents.py lines 89-155):
reject unsupported extensions with 400; decode the bytes — a
`UnicodeDecodeError` is caught and mapped to 400 `File must be valid UTF-8
text`; reject empty text with 400; otherwise index and return 201 (or 500 if
indexing raised).  The `Bool` records whether `index_documents` was invoked. -/
def upload_document (env : UploadEnv) (filename : String) (content : List Nat) :
    UploadHttp × Bool :=
  let extension := extensionOf filename
  if !(SUPPORTED_EXTENSIONS.contains extension) then
    (.badRequest400 "Unsupported file type. Supported formats: .txt, .md", false)
  else
    match env.decodeUtf8 content with
    | none => (.badRequest400 "File must be valid UTF-8 text", false)
    | some text =>
      if pyStrip text = "" then (.badRequest400 "Content cannot be empty", false)
      else
        match env.indexResult text with
        | .error _ => (.serverError500 "Internal server error", true)
        | .ok chunk_count =>
            (.created201 env.newDocId chunk_count
              ("File '" ++ filename ++ "' indexed successfully with " ++
                toString chunk_count ++ " chunks"), true)

/-! ### Vector store adapter lifecycle

Three code paths obtain a `QdrantDocumentStore`; we track how many times the
constructor (`QdrantDocumentStore.__init__`, which opens a Qdrant connection)
runs, and retrieval.py's module-level `_cached_document_store`.  A constructed
instance is identified by its construction number. -/

/-- Process state: retrieval.py's `_cached_document_store` cache and the number
of `QdrantDocumentStore` constructions so far. -/
structure AdapterProcState where
  cachedRetrievalStore : Option Nat
  constructions : Nat
deriving DecidableEq, Repr

/-- store.py `get_document_store` (lines 317-319): the body is
`return QdrantDocumentStore()` — a new adapter on every call.  Returns the
instance (as its construction number) and the new process state. -/
def store_get_document_store (st : AdapterProcState) : Nat × AdapterProcState :=
  (st.constructions, { st with constructions := st.constructions + 1 })

/-- retrieval.py `get_document_store` (lines 70-85): constructs only when
`_cached_document_store is None`, then reuses the cached instance. -/
def retrieval_get_document_store (st : AdapterProcState) : Nat × AdapterProcState :=
  match st.cachedRetrievalStore with
  | some tag => (tag, st)
  | none =>
      (st.constructions,
       { cachedRetrievalStore := some st.constructions
         constructions := st.constructions + 1 })

/-- indexing.py `create_indexing_pipeline` (lines 21-63, called by
`index_documents` on every indexing run): constructs `QdrantDocumentStore(...)`
unconditionally. -/
def create_indexing_pipeline (st : AdapterProcState) : Nat × AdapterProcState :=
  (st.constructions, { st with constructions := st.constructions + 1 })

/-- Operations of a process that need a store adapter. -/
inductive AdapterOp
  | retrievalQuery
  | docManagement
  | indexingRun
deriving DecidableEq, Repr

/-- How each operation obtains its adapter: retrieval uses retrieval.py's
cached getter; the document-management routes import store.py's getter
(documents.py line 21); indexing runs `create_indexing_pipeline`. -/
def adapterStep (st : AdapterProcState) : AdapterOp → AdapterProcState
  | .retrievalQuery => (retrieval_get_document_store st).2
  | .docManagement => (store_get_document_store st).2
  | .indexingRun => (create_indexing_pipeline st).2

/-- Run a sequence of operations from process start
(`_cached_document_store = None`, no constructions). -/
def runAdapterOps (ops : List AdapterOp) : AdapterProcState :=
  ops.foldl adapterStep ⟨none, 0⟩

/-- Boolean success classifier for `Except` outcomes. -/
def exceptOk : Except ε α → Bool
  | .ok _ => true
  | .error _ => false

/-- Decidable equality for `Except`, so witnesses can be checked by `decide`. -/
instance exceptDecEq [DecidableEq ε] [DecidableEq α] : DecidableEq (Except ε α) := fun x y =>
  match x, y with
  | .ok a, .ok b =>
      if h : a = b then .isTrue (h ▸ rfl) else .isFalse (fun hh => h (Except.ok.inj hh))
  | .error a, .error b =>
      if h : a = b then .isTrue (h ▸ rfl) else .isFalse (fun hh => h (Except.error.inj hh))
  | .ok _, .error _ => .isFalse (fun hh => Except.noConfusion hh)
  | .error _, .ok _ => .isFalse (fun hh => Except.noConfusion hh)

/-! ### Concrete inputs used in witnesses and counterexamples -/

/-- A Qdrant client whose remote calls all succeed. -/
def alwaysOkClient : QdrantClient :=
  { upsertOk := fun _ => true
    deleteByIdsOk := fun _ => true
    deleteByFilterOk := fun _ => true }

/-- A document with an embedding. -/
def docA : Document :=
  { id := "doc1", content := "first version", meta := [], embedding := some [1, 2] }

/-- A re-write of `docA`'s id with different content, metadata and embedding. -/
def docB : Document :=
  { id := "doc1", content := "second version", meta := [("k", "v")], embedding := some [3] }

/-- A document without an embedding. -/
def docNoEmbedding : Document :=
  { id := "doc2", content := "raw", meta := [], embedding := none }

/-- The point `write_documents` builds for `docA`. -/
def pointA : PointStruct :=
  { id := write_point_id "doc1", vector := [1, 2]
    payload := [("content", "first version"), ("doc_id", "doc1")] }

/-- The point `write_documents` builds for `docB`. -/
def pointB : PointStruct :=
  { id := write_point_id "doc1", vector := [3]
    payload := [("content", "second version"), ("doc_id", "doc1"), ("k", "v")] }

/-- A streaming call on which the embedder raises a non-retryable error. -/
def embedFailStreamEnv : StreamingEnv :=
  { embedAttempts := fun _ => .fatal "AuthenticationError"
    searchResult := .ok []
    llmTokens := []
    llmFailure := none }

/-- A streaming call on which every external service succeeds. -/
def okStreamEnv : StreamingEnv :=
  { embedAttempts := fun _ => .ok [1]
    searchResult := .ok [docA]
    llmTokens := ["Hel", "lo"]
    llmFailure := none }

/-- A retrieval call on which every embedding attempt fails retryably. -/
def retryExhaustEnv : RetrievalEnv :=
  { embedAttempts := fun _ => .retryable "APIError: boom"
    searchResult := .ok []
    generationResult := .ok "answer" }

/-- An upload request whose bytes fail UTF-8 decoding. -/
def uploadFailEnv : UploadEnv :=
  { decodeUtf8 := fun _ => none
    newDocId := "11111111-2222-3333-4444-555555555555"
    indexResult := fun _ => .ok 1 }

/-! ## Claim theorems -/

/-- C1: the spec says `DELETE /documents/{id}` returns success when the
store's id-based deletion succeeds, and 404 only when nothing was deleted.
At this input the store delete succeeds and returns `1`
(`len(document_ids)`), yet the route — which tests `result == -1`, a value
id-based deletion never produces — answers 404 `Document not found`.  This
contradicts the route's own inline comment and the repository's test
`test_delete_document_by_id` (expects 200). -/
theorem c1_delete_route_404_despite_successful_delete :
    (delete_documents alwaysOkClient ["doc-1"] []).1 = .ok 1 ∧
    delete_document alwaysOkClient "doc-1" = .notFound404 "Document not found" :=
  ⟨by decide, by decide⟩

/-- C2: the spec says the store adapter is constructed at most once per
process and reused by retrieval, indexing and document management.  In the
code only retrieval.py caches (`_cached_document_store`); store.py's
`get_document_store` — despite its docstring "Get or create the global
document store instance" — and indexing's `create_indexing_pipeline`
construct a fresh adapter on every call: two document-management requests
construct two adapters, two indexing runs construct two, while two retrieval
queries share one. -/
theorem c2_adapter_not_singleton :
    (runAdapterOps [.docManagement, .docManagement]).constructions = 2 ∧
    (runAdapterOps [.indexingRun, .indexingRun]).constructions = 2 ∧
    (runAdapterOps [.retrievalQuery, .retrievalQuery]).constructions = 1 := by
  decide

/-- C4: `delete_documents` returns exactly `len(document_ids)` for a
successful deletion by a non-empty id list; the sentinel `-1` — never a
positive count — for a successful filter-only deletion; and `0` with no
remote deletion call when neither ids nor filters are given. -/
theorem c4_delete_documents_count_contract (client : QdrantClient)
    (ids : List String) (filters : List (String × String)) :
    (ids ≠ [] → client.deleteByIdsOk (ids.map delete_point_id) = true →
      (delete_documents client ids filters).1 = .ok (ids.length : Int)) ∧
    (ids = [] → filters ≠ [] → client.deleteByFilterOk filters = true →
      (delete_documents client ids filters).1 = .ok (-1)) ∧
    (ids = [] → filters ≠ [] → ∀ n : Int, 0 < n →
      (delete_documents client ids filters).1 ≠ .ok n) ∧
    (ids = [] → filters = [] → delete_documents client ids filters = (.ok 0, [])) := by
  refine ⟨?_, ?_, ?_, ?_⟩
  · intro hne hok
    simp [delete_documents, hne, hok]
  · intro hids hf hok
    subst hids
    simp [delete_documents, hf, hok]
  · intro hids hf n hn
    subst hids
    simp only [delete_documents]
    cases h : client.deleteByFilterOk filters with
    | true =>
        simp [hf, h]
        omega
    | false =>
        simp [hf, h]
  · intro hids hf
    subst hids
    subst hf
    simp [delete_documents]

/-- C4 witness: the three contract cases at concrete inputs. -/
theorem c4_delete_documents_count_contract_witness :
    (delete_documents alwaysOkClient ["doc-1"] []).1 = .ok 1 ∧
    (delete_documents alwaysOkClient [] [("category", "x")]).1 = .ok (-1) ∧
    delete_documents alwaysOkClient [] [] = (.ok 0, []) :=
  ⟨(c4_delete_documents_count_contract alwaysOkClient ["doc-1"] []).1
      (by decide) (by decide),
   (c4_delete_documents_count_contract alwaysOkClient [] [("category", "x")]).2.1
      rfl (by decide) (by decide),
   (c4_delete_documents_count_contract alwaysOkClient [] []).2.2.2 rfl rfl⟩

/-- C9: when both a non-empty id list and a filters map are supplied,
`delete_documents` performs only the id-based deletion — no filter-based
delete call is issued — and a successful call returns `len(document_ids)`. -/
theorem c9_ids_take_precedence_over_filters (client : QdrantClient)
    (ids : List String) (filters : List (String × String)) (hne : ids ≠ []) :
    (delete_documents client ids filters).2 = [.byIds (ids.map delete_point_id)] ∧
    (∀ conds, DeleteEffect.byFilter conds ∉ (delete_documents client ids filters).2) ∧
    (client.deleteByIdsOk (ids.map delete_point_id) = true →
      (delete_documents client ids filters).1 = .ok (ids.length : Int)) := by
  have heff : (delete_documents client ids filters).2 =
      [.byIds (ids.map delete_point_id)] := by
    simp only [delete_documents]
    rw [if_pos hne]
    cases h : client.deleteByIdsOk (ids.map delete_point_id) <;> simp [h]
  refine ⟨heff, ?_, ?_⟩
  · intro conds hmem
    rw [heff] at hmem
    simp at hmem
  · intro hok
    simp [delete_documents, hne, hok]

/-- C9 witness: ids and filters both supplied; only the id deletion happens. -/
theorem c9_ids_take_precedence_over_filters_witness :
    (delete_documents alwaysOkClient ["a", "b"] [("category", "x")]).2 =
      [.byIds [delete_point_id "a", delete_point_id "b"]] ∧
    (delete_documents alwaysOkClient ["a", "b"] [("category", "x")]).1 = .ok 2 :=
  ⟨(c9_ids_take_precedence_over_filters alwaysOkClient ["a", "b"] [("category", "x")]
      (by decide)).1,
   (c9_ids_take_precedence_over_filters alwaysOkClient ["a", "b"] [("category", "x")]
      (by decide)).2.2 (by decide)⟩

/-- C10: uploading a file with a supported extension whose bytes are not
valid UTF-8 yields HTTP 400 `File must be valid UTF-8 text` (the
`UnicodeDecodeError` is caught, not surfaced as 500), and `index_documents`
is never invoked. -/
theorem c10_upload_invalid_utf8_rejected (env : UploadEnv) (filename : String)
    (content : List Nat)
    (hext : SUPPORTED_EXTENSIONS.contains (extensionOf filename) = true)
    (hdec : env.decodeUtf8 content = none) :
    upload_document env filename content =
      (.badRequest400 "File must be valid UTF-8 text", false) := by
  simp [upload_document, hext, hdec]
  simpa using hext

/-- C10 witness: a `.txt` upload whose bytes fail UTF-8 decoding. -/
theorem c10_upload_invalid_utf8_rejected_witness :
    upload_document uploadFailEnv "notes.txt" [255, 254] =
      (.badRequest400 "File must be valid UTF-8 text", false) :=
  c10_upload_invalid_utf8_rejected uploadFailEnv "notes.txt" [255, 254] (by decide) rfl

/-- C8: a `POST /query` whose query strips to the empty string (empty or
whitespace-only) is rejected with 400 `Query cannot be empty` in both
streaming and non-streaming mode, and no pipeline stage — in particular not
the embedding stage — executes. -/
theorem c8_empty_query_rejected (env : RetrievalEnv) (senv : StreamingEnv)
    (query : String) (stream : Bool) (h : pyStrip query = "") :
    query_documents env senv query stream =
      (.badRequest400 "Query cannot be empty", []) ∧
    Stage.embedding ∉ (query_documents env senv query stream).2 := by
  have hq : query_documents env senv query stream =
      (.badRequest400 "Query cannot be empty", []) := by
    simp [query_documents, h]
  exact ⟨hq, by rw [hq]; simp⟩

/-- C8 witness: a whitespace-only query in streaming mode and an empty query
in non-streaming mode are both rejected. -/
theorem c8_empty_query_rejected_witness :
    query_documents retryExhaustEnv okStreamEnv "   " true =
      (.badRequest400 "Query cannot be empty", []) ∧
    query_documents retryExhaustEnv okStreamEnv "" false =
      (.badRequest400 "Query cannot be empty", []) :=
  ⟨(c8_empty_query_rejected retryExhaustEnv okStreamEnv "   " true (by decide)).1,
   (c8_empty_query_rejected retryExhaustEnv okStreamEnv "" false (by decide)).1⟩

/-- C7: when all 3 embedding attempts raise retryable errors
(`stop_after_attempt(3)` exhausted), `retrieve_documents` raises the
distinguished `ExternalServiceError` wrapping the re-raised last cause, and
neither the vector-search stage nor the generation stage executes. -/
theorem c7_retry_exhaustion_raises_external_service_error (env : RetrievalEnv)
    (query : String) (m0 m1 m2 : String)
    (h0 : env.embedAttempts 0 = .retryable m0)
    (h1 : env.embedAttempts 1 = .retryable m1)
    (h2 : env.embedAttempts 2 = .retryable m2) :
    retrieve_documents env query =
      (.error (.externalService ("Failed to generate embedding: " ++ m2)),
       [Stage.embedding]) ∧
    Stage.search ∉ (retrieve_documents env query).2 ∧
    Stage.generation ∉ (retrieve_documents env query).2 := by
  have hr : generate_embedding_with_retry env.embedAttempts = .error m2 := by
    simp [generate_embedding_with_retry, retryEmbedding, h0, h1, h2]
  have hmain : retrieve_documents env query =
      (.error (.externalService ("Failed to generate embedding: " ++ m2)),
       [Stage.embedding]) := by
    simp [retrieve_documents, hr]
  exact ⟨hmain, by rw [hmain]; simp, by rw [hmain]; simp⟩

/-- C7 witness: an environment whose embedder fails retryably on every attempt. -/
theorem c7_retry_exhaustion_witness :
    retrieve_documents retryExhaustEnv "q" =
      (.error (.externalService "Failed to generate embedding: APIError: boom"),
       [Stage.embedding]) :=
  (c7_retry_exhaustion_raises_external_service_error retryExhaustEnv "q"
    "APIError: boom" "APIError: boom" "APIError: boom" rfl rfl rfl).1

/-- After `upsertPoint st p`, some stored point carries `p`'s id. -/
theorem upsertPoint_mem_id (st : List PointStruct) (p : PointStruct) :
    (upsertPoint st p).any (fun q => q.id == p.id) = true := by
  unfold upsertPoint
  cases h : st.any (fun q => q.id == p.id) with
  | true =>
      rw [if_pos rfl]
      obtain ⟨q, hq, hid⟩ := List.any_eq_true.mp h
      refine List.any_eq_true.mpr ⟨p, ?_, by simp⟩
      exact List.mem_map.mpr ⟨q, hq, by simp [hid]⟩
  | false =>
      rw [if_neg (by simp)]
      exact List.any_eq_true.mpr ⟨p, by simp, by simp⟩

/-- Upserting a point whose id is already stored leaves the size unchanged. -/
theorem upsertPoint_length_of_present (st : List PointStruct) (p : PointStruct)
    (h : st.any (fun q => q.id == p.id) = true) :
    (upsertPoint st p).length = st.length := by
  unfold upsertPoint
  rw [if_pos h, List.length_map]

/-- C5: the stored point id is a pure function of the document id alone —
points built by `write_documents` for documents sharing an id get the same
point id whatever their content, metadata or embedding; `write_documents` and
`delete_documents` compute identical point ids for every id; upserting again
under the same id overwrites the same stored point (collection size
unchanged); and deleting by a document id removes exactly the points stored
under the id `write_documents` derives from it. -/
theorem c5_point_id_pure_function_of_id (d1 d2 : Document) (h : d1.id = d2.id)
    (st : List PointStruct) (p1 p2 : PointStruct)
    (h1 : mkPoint d1 = some p1) (h2 : mkPoint d2 = some p2) :
    p1.id = p2.id ∧
    p1.id = write_point_id d1.id ∧
    (∀ i : String, write_point_id i = delete_point_id i) ∧
    (upsertPoint (upsertPoint st p1) p2).length = (upsertPoint st p1).length ∧
    deleteByIds st [delete_point_id d1.id] =
      st.filter (fun q => !(q.id == write_point_id d1.id)) := by
  have e1 : p1.id = write_point_id d1.id := by
    unfold mkPoint at h1
    cases hd : d1.embedding with
    | none => rw [hd] at h1; cases h1
    | some emb => rw [hd] at h1; injection h1 with h1; rw [← h1]
  have e2 : p2.id = write_point_id d2.id := by
    unfold mkPoint at h2
    cases hd : d2.embedding with
    | none => rw [hd] at h2; cases h2
    | some emb => rw [hd] at h2; injection h2 with h2; rw [← h2]
  have e12 : p1.id = p2.id := by rw [e1, e2, h]
  refine ⟨e12, e1, fun i => rfl, ?_, ?_⟩
  · apply upsertPoint_length_of_present
    rw [← e12]
    exact upsertPoint_mem_id st p1
  · rw [show delete_point_id d1.id = write_point_id d1.id from rfl]
    unfold deleteByIds
    apply List.filter_congr
    intro q _
    simp [List.contains]
    exact (Bool.beq_eq_decide_eq q.id (write_point_id d1.id)).symm

/-- C5 witness: re-writing id `doc1` with different content targets the same
point (size unchanged after the second upsert). -/
theorem c5_point_id_pure_function_of_id_witness :
    pointA.id = pointB.id ∧
    (upsertPoint (upsertPoint [] pointA) pointB).length =
      (upsertPoint [] pointA).length :=
  ⟨(c5_point_id_pure_function_of_id docA docB rfl [] pointA pointB rfl rfl).1,
   (c5_point_id_pure_function_of_id docA docB rfl [] pointA pointB rfl rfl).2.2.2.1⟩

/-- Documents without an embedding contribute no point. -/
theorem filterMap_mkPoint_filter (docs : List Document) :
    docs.filterMap mkPoint =
      (docs.filter (fun d => d.embedding.isSome)).filterMap mkPoint := by
  induction docs with
  | nil => rfl
  | cons d rest ih =>
      cases hd : d.embedding with
      | none => simp [List.filterMap_cons, List.filter_cons, mkPoint, hd, ih]
      | some e => simp [List.filterMap_cons, List.filter_cons, mkPoint, hd, ih]

/-- Exactly one point is built per document that has an embedding. -/
theorem length_filterMap_mkPoint (docs : List Document) :
    (docs.filterMap mkPoint).length =
      (docs.filter (fun d => d.embedding.isSome)).length := by
  induction docs with
  | nil => rfl
  | cons d rest ih =>
      cases hd : d.embedding with
      | none => simp [List.filterMap_cons, List.filter_cons, mkPoint, hd, ih]
      | some e => simp [List.filterMap_cons, List.filter_cons, mkPoint, hd, ih]

/-- With every upsert succeeding, the batch loop writes every batch and
returns the accumulated length. -/
theorem upsertBatches_all_ok (client : QdrantClient)
    (hok : ∀ b, client.upsertOk b = true) (batches : List (List PointStruct)) :
    ∀ acc, upsertBatches client batches acc =
      (.ok (acc + (batches.map List.length).sum), batches.flatten) := by
  induction batches with
  | nil => intro acc; simp [upsertBatches]
  | cons b rest ih =>
      intro acc
      simp [upsertBatches, hok b, ih (acc + b.length), Nat.add_assoc]

/-- `n` chunks of size `bs` cover a list of length at most `n * bs`. -/
theorem chunksN_flatten {α : Type} (bs : Nat) :
    ∀ (n : Nat) (xs : List α), xs.length ≤ n * bs → (chunksN bs n xs).flatten = xs := by
  intro n
  induction n with
  | zero =>
      intro xs h
      simp only [Nat.zero_mul, Nat.le_zero] at h
      simp [chunksN, List.length_eq_zero.mp h]
  | succ n ih =>
      intro xs h
      have h' : xs.length ≤ n * bs + bs := by rw [Nat.succ_mul] at h; exact h
      have hlen : (xs.drop bs).length ≤ n * bs := by
        rw [List.length_drop]; omega
      simp only [chunksN, List.flatten_cons]
      rw [ih (xs.drop bs) hlen]
      exact List.take_append_drop bs xs

/-- Ceiling-division cover: `len ≤ ((len + bs - 1) / bs) * bs` for `0 < bs`. -/
theorem le_ceilDiv_mul (len bs : Nat) (hbs : 0 < bs) :
    len ≤ ((len + bs - 1) / bs) * bs := by
  have hdm := Nat.div_add_mod (len + bs - 1) bs
  have hlt : (len + bs - 1) % bs < bs := Nat.mod_lt _ hbs
  rw [Nat.mul_comm]
  generalize hq : (len + bs - 1) / bs = q at hdm ⊢
  generalize hr : (len + bs - 1) % bs = r at hdm hlt
  generalize hm : bs * q = m at hdm ⊢
  omega

/-- C6: with a positive batch size and every upsert batch succeeding,
`write_documents` returns exactly the number of input documents that carry an
embedding (0 if none), and the persisted points are exactly those built from
the embedded documents — a document whose embedding is `None` contributes
neither to the count nor to the persisted set. -/
theorem c6_write_documents_skips_unembedded (client : QdrantClient)
    (docs : List Document) (bs : Nat) (hbs : 0 < bs)
    (hok : ∀ b, client.upsertOk b = true) :
    write_documents client docs bs =
      (.ok (docs.filter (fun d => d.embedding.isSome)).length,
       (docs.filter (fun d => d.embedding.isSome)).filterMap mkPoint) := by
  unfold write_documents
  by_cases hdocs : docs = []
  · subst hdocs; simp
  · rw [if_neg hdocs]
    by_cases hpts : docs.filterMap mkPoint = []
    · rw [if_pos hpts]
      have hl : (docs.filter (fun d => d.embedding.isSome)).length = 0 := by
        rw [← length_filterMap_mkPoint, hpts]; rfl
      have hfm : (docs.filter (fun d => d.embedding.isSome)).filterMap mkPoint = [] := by
        rw [← filterMap_mkPoint_filter]; exact hpts
      rw [hl, hfm]
    · rw [if_neg hpts, if_neg (Nat.pos_iff_ne_zero.mp hbs)]
      rw [upsertBatches_all_ok client hok]
      have hcov : (docs.filterMap mkPoint).length ≤
          (((docs.filterMap mkPoint).length + bs - 1) / bs) * bs :=
        le_ceilDiv_mul _ bs hbs
      have hfl : (chunksN bs (((docs.filterMap mkPoint).length + bs - 1) / bs)
          (docs.filterMap mkPoint)).flatten = docs.filterMap mkPoint :=
        chunksN_flatten bs _ _ hcov
      have hsum : ((chunksN bs (((docs.filterMap mkPoint).length + bs - 1) / bs)
          (docs.filterMap mkPoint)).map List.length).sum =
          (docs.filterMap mkPoint).length := by
        rw [← List.length_flatten, hfl]
      rw [hfl, hsum, Nat.zero_add, length_filterMap_mkPoint, filterMap_mkPoint_filter]

/-- C6 witness: of three documents one lacks an embedding; the returned count
is 2 and exactly the two embedded documents' points are persisted. -/
theorem c6_write_documents_skips_unembedded_witness :
    write_documents alwaysOkClient [docA, docNoEmbedding, docB] 2 =
      (.ok 2, [pointA, pointB]) :=
  c6_write_documents_skips_unembedded alwaysOkClient [docA, docNoEmbedding, docB] 2
    (by decide) (fun _ => rfl)

/-- C3 counterexample: on a streaming invocation whose embedding stage fails,
the emitted sequence is a single `error` event — it contains no `documents`
event, so the claim's "exactly one documents event per invocation" is false. -/
theorem c3_counterexample_embed_failure_emits_no_documents_event :
    ¬ ((retrieve_documents_streaming embedFailStreamEnv).countP isDocumentsEvent = 1) := by
  decide

/-- C3 (amended): every streaming invocation emits at most one `documents`
event; no `token` event precedes the first `documents` event; the sequence is
nonempty, ends with a terminal event (`done` or `error`) and contains exactly
one terminal event (so no event follows it); and on every invocation on which
the embedding and search stages both succeed, exactly one `documents` event
is emitted. -/
theorem c3_streaming_event_protocol (env : StreamingEnv) :
    (retrieve_documents_streaming env).countP isDocumentsEvent ≤ 1 ∧
    ((retrieve_documents_streaming env).takeWhile (fun e => !(isDocumentsEvent e))).all
      (fun e => !(isTokenEvent e)) = true ∧
    (∃ t, (retrieve_documents_streaming env).getLast? = some t ∧
      isTerminalEvent t = true) ∧
    (retrieve_documents_streaming env).countP isTerminalEvent = 1 ∧
    (exceptOk (generate_embedding_with_retry env.embedAttempts) = true →
      exceptOk env.searchResult = true →
      (retrieve_documents_streaming env).countP isDocumentsEvent = 1) := by
  unfold retrieve_documents_streaming
  cases hemb : generate_embedding_with_retry env.embedAttempts with
  | error e =>
      refine ⟨?_, ?_, ⟨_, rfl, rfl⟩, ?_, ?_⟩
      · simp [isDocumentsEvent]
      · simp [isDocumentsEvent, isTokenEvent]
      · simp [isTerminalEvent, List.countP_cons]
      · intro hok; simp [exceptOk] at hok
  | ok emb =>
      cases hs : env.searchResult with
      | error e =>
          refine ⟨?_, ?_, ⟨_, rfl, rfl⟩, ?_, ?_⟩
          · simp [isDocumentsEvent]
          · simp [isDocumentsEvent, isTokenEvent]
          · simp [isTerminalEvent, List.countP_cons]
          · intro _ hok; simp [exceptOk] at hok
      | ok docs =>
          have hcd : ∀ ts : List String,
              (ts.map StreamEvent.token).countP isDocumentsEvent = 0 := by
            intro ts
            simp [List.countP_map, Function.comp, isDocumentsEvent, List.countP_eq_zero]
          have hct : ∀ ts : List String,
              (ts.map StreamEvent.token).countP isTerminalEvent = 0 := by
            intro ts
            simp [List.countP_map, Function.comp, isTerminalEvent, List.countP_eq_zero]
          cases hf : env.llmFailure with
          | none =>
              refine ⟨?_, ?_, ⟨StreamEvent.done, ?_, rfl⟩, ?_, ?_⟩
              · simp [List.countP_cons, List.countP_append, hcd env.llmTokens,
                  isDocumentsEvent]
              · simp [List.takeWhile_cons, isDocumentsEvent]
              · show (StreamEvent.documents docs ::
                    (env.llmTokens.map StreamEvent.token ++ [StreamEvent.done])).getLast? =
                    some StreamEvent.done
                rw [← List.cons_append]
                exact List.getLast?_concat _
              · simp [List.countP_cons, List.countP_append, hct env.llmTokens,
                  isTerminalEvent]
              · intro _ _
                simp [List.countP_cons, List.countP_append, hcd env.llmTokens,
                  isDocumentsEvent]
          | some e =>
              refine ⟨?_, ?_, ⟨StreamEvent.error ("Failed to stream answer: " ++ e), ?_, rfl⟩, ?_, ?_⟩
              · simp [List.countP_cons, List.countP_append, hcd env.llmTokens,
                  isDocumentsEvent]
              · simp [List.takeWhile_cons, isDocumentsEvent]
              · show (StreamEvent.documents docs ::
                    (env.llmTokens.map StreamEvent.token ++
                      [StreamEvent.error ("Failed to stream answer: " ++ e)])).getLast? =
                    some (StreamEvent.error ("Failed to stream answer: " ++ e))
                rw [← List.cons_append]
                exact List.getLast?_concat _
              · simp [List.countP_cons, List.countP_append, hct env.llmTokens,
                  isTerminalEvent]
              · intro _ _
                simp [List.countP_cons, List.countP_append, hcd env.llmTokens,
                  isDocumentsEvent]

/-- C3 witness: on a fully successful streaming invocation exactly one
`documents` event is emitted. -/
theorem c3_streaming_event_protocol_witness :
    (retrieve_documents_streaming okStreamEnv).countP isDocumentsEvent = 1 :=
  (c3_streaming_event_protocol okStreamEnv).2.2.2.2 (by decide) (by decide)

end Quilora
